import Mathlib

/-!
Verification of the Dummy-generator employee server (src/main.js).

The server exposes a pure random-salary utility and four HTTP routes
backed by a document store.  The salary utility is embedded over the
rationals: the ambient random draw (Math.random) is an explicit
parameter rand with intended range 0 <= rand < 1, and Math.floor is
the integer floor on Q (real arithmetic is modelled exactly).  The
record store (a mongoose collection, not part of this repository) is
modelled from the spec as a list of employee records; each route
handler is translated from its source and takes an explicit fault
parameter describing whether (and, for the bulk insert, where) the
storage layer faults during the request.
-/

/-- Employee record shape: the five fields used by src/main.js
(the schema lives in models/employee.js, which only names the fields). -/
structure Employee where
  name : String
  salary : ℤ
  language : String
  city : String
  isManager : Bool
deriving DecidableEq, Repr

/-- Default lower bound of getRandomSalary (src/main.js line 92). -/
def defaultMinSalary : ℤ := 400000

/-- Default upper bound of getRandomSalary (src/main.js line 92). -/
def defaultMaxSalary : ℤ := 5000000

/-- Embedding of getRandomSalary (src/main.js lines 92-94):
Math.floor(Math.random() * (max - min + 1)) + min, with the draw of
Math.random passed explicitly as rand. -/
def getRandomSalary (rand : ℚ) (min max : ℤ) : ℤ :=
  ⌊rand * ((max : ℚ) - (min : ℚ) + 1)⌋ + min

/-- Helper: with a draw in the unit interval and min <= max, the result
lies in the closed range. -/
lemma getRandomSalary_mem_range (min max : ℤ) (h : min ≤ max) (r : ℚ)
    (h0 : 0 ≤ r) (h1 : r < 1) :
    min ≤ getRandomSalary r min max ∧ getRandomSalary r min max ≤ max := by
  unfold getRandomSalary
  have hL : (1 : ℚ) ≤ (max : ℚ) - (min : ℚ) + 1 := by
    have : (min : ℚ) ≤ (max : ℚ) := by exact_mod_cast h
    linarith
  have hnn : 0 ≤ r * ((max : ℚ) - (min : ℚ) + 1) :=
    mul_nonneg h0 (by linarith)
  have hub : r * ((max : ℚ) - (min : ℚ) + 1) < (max : ℚ) - (min : ℚ) + 1 := by
    have hLpos : (0 : ℚ) < (max : ℚ) - (min : ℚ) + 1 := by linarith
    calc r * ((max : ℚ) - (min : ℚ) + 1)
        < 1 * ((max : ℚ) - (min : ℚ) + 1) := by
          exact mul_lt_mul_of_pos_right h1 hLpos
      _ = (max : ℚ) - (min : ℚ) + 1 := one_mul _
  constructor
  · have : (0 : ℤ) ≤ ⌊r * ((max : ℚ) - (min : ℚ) + 1)⌋ :=
      Int.floor_nonneg.mpr hnn
    omega
  · have : ⌊r * ((max : ℚ) - (min : ℚ) + 1)⌋ < max - min + 1 := by
      apply Int.floor_lt.mpr
      push_cast
      linarith
    omega

/-- Helper: every integer of the closed range is hit by some draw in
the unit interval. -/
lemma getRandomSalary_surj (min max : ℤ) (h : min ≤ max) (n : ℤ)
    (hn1 : min ≤ n) (hn2 : n ≤ max) :
    ∃ r : ℚ, 0 ≤ r ∧ r < 1 ∧ getRandomSalary r min max = n := by
  set L : ℚ := (max : ℚ) - (min : ℚ) + 1 with hLdef
  have hLpos : (0 : ℚ) < L := by
    have : (min : ℚ) ≤ (max : ℚ) := by exact_mod_cast h
    simp only [hLdef]; linarith
  refine ⟨((n : ℚ) - (min : ℚ)) / L, ?_, ?_, ?_⟩
  · apply div_nonneg _ (le_of_lt hLpos)
    have : (min : ℚ) ≤ (n : ℚ) := by exact_mod_cast hn1
    linarith
  · rw [div_lt_one hLpos]
    have : (n : ℚ) ≤ (max : ℚ) := by exact_mod_cast hn2
    simp only [hLdef]; linarith
  · unfold getRandomSalary
    rw [div_mul_cancel₀ _ (ne_of_gt hLpos)]
    have : ((n : ℚ) - (min : ℚ)) = ((n - min : ℤ) : ℚ) := by push_cast; ring
    rw [this, Int.floor_intCast]
    omega

/-- Claim C1: for min <= max and any draw of the unit interval,
getRandomSalary returns an integer n with min <= n <= max inclusive,
and every integer of that closed range is a possible output. -/
theorem getRandomSalary_range_and_cover (min max : ℤ) (h : min ≤ max) :
    (∀ r : ℚ, 0 ≤ r → r < 1 →
      min ≤ getRandomSalary r min max ∧ getRandomSalary r min max ≤ max) ∧
    (∀ n : ℤ, min ≤ n → n ≤ max →
      ∃ r : ℚ, 0 ≤ r ∧ r < 1 ∧ getRandomSalary r min max = n) :=
  ⟨fun r h0 h1 => getRandomSalary_mem_range min max h r h0 h1,
   fun n hn1 hn2 => getRandomSalary_surj min max h n hn1 hn2⟩

/-- Witness for C1 at the default bounds. -/
theorem getRandomSalary_range_and_cover_witness :
    (400000 : ℤ) ≤ 5000000 ∧
    ((∀ r : ℚ, 0 ≤ r → r < 1 →
      400000 ≤ getRandomSalary r 400000 5000000 ∧
        getRandomSalary r 400000 5000000 ≤ 5000000) ∧
    (∀ n : ℤ, 400000 ≤ n → n ≤ 5000000 →
      ∃ r : ℚ, 0 ≤ r ∧ r < 1 ∧ getRandomSalary r 400000 5000000 = n)) :=
  ⟨by decide, getRandomSalary_range_and_cover 400000 5000000 (by decide)⟩

/-- Claim C9: on a degenerate one-element range the result is the
unique element, regardless of the draw. -/
theorem getRandomSalary_degenerate (m : ℤ) (r : ℚ) (h0 : 0 ≤ r) (h1 : r < 1) :
    getRandomSalary r m m = m := by
  unfold getRandomSalary
  have : (m : ℚ) - (m : ℚ) + 1 = 1 := by ring
  rw [this, mul_one]
  have : ⌊r⌋ = 0 := Int.floor_eq_zero_iff.mpr ⟨h0, h1⟩
  omega

/-- Witness for C9 at m = 7 with draw 1/2. -/
theorem getRandomSalary_degenerate_witness :
    getRandomSalary (1/2 : ℚ) 7 7 = 7 :=
  getRandomSalary_degenerate 7 (1/2) (by norm_num) (by norm_num)

/-- Counterexample to claim C2 as stated: the value of getRandomSalary
depends on the ambient random draw, so two calls with the same
arguments min <= max need not return the same value. -/
theorem getRandomSalary_not_stateless_cx :
    getRandomSalary 0 400000 5000000 ≠ getRandomSalary (1/2) 400000 5000000 := by
  norm_num [getRandomSalary]

/-- Claim C2 amended: getRandomSalary is a total deterministic function
of the random draw together with the arguments (no side effects, no
failure modes), but it genuinely depends on the draw, so calls that
share only the arguments may disagree. -/
theorem getRandomSalary_deterministic_in_draw :
    (∀ (r : ℚ) (min max : ℤ), ∃! n : ℤ, getRandomSalary r min max = n) ∧
    (∃ r₁ r₂ : ℚ, 0 ≤ r₁ ∧ r₁ < 1 ∧ 0 ≤ r₂ ∧ r₂ < 1 ∧
      getRandomSalary r₁ 400000 5000000 ≠ getRandomSalary r₂ 400000 5000000) := by
  constructor
  · exact fun r min max => ⟨getRandomSalary r min max, rfl, fun y hy => hy.symm⟩
  · refine ⟨0, 1/2, le_refl 0, by norm_num, by norm_num, by norm_num, ?_⟩
    norm_num [getRandomSalary]

/-- Claim C10: getRandomSalary is total even when min > max, and for
some such inputs the result is strictly below min. -/
theorem getRandomSalary_total_and_below_min :
    (∀ (r : ℚ) (min max : ℤ), ∃ n : ℤ, getRandomSalary r min max = n) ∧
    (∃ (min max : ℤ) (r : ℚ), max < min ∧ 0 ≤ r ∧ r < 1 ∧
      getRandomSalary r min max < min) := by
  constructor
  · exact fun r min max => ⟨getRandomSalary r min max, rfl⟩
  · refine ⟨10, 0, 1/2, by norm_num, by norm_num, by norm_num, ?_⟩
    norm_num [getRandomSalary]

/-- HTTP response: status code and plain-text body. -/
structure Response where
  status : Nat
  body : String
deriving DecidableEq, Repr

/-- Generic error body sent by every catch block (src/main.js
lines 118, 146, 160). -/
def errorResponse : Response := ⟨500, "Internal server error"⟩

/-- Base identity of an employee built for the bulk route: every field
except the salary, which is drawn at request time. -/
structure BaseEmployee where
  name : String
  language : String
  city : String
  isManager : Bool
deriving DecidableEq, Repr

/-- Spread of a base identity with a salary (the object spread at
src/main.js lines 137-140). -/
def withSalary (b : BaseEmployee) (s : ℤ) : Employee :=
  ⟨b.name, s, b.language, b.city, b.isManager⟩

/-- Modelled from the spec: the Record Store (a mongoose collection,
which is not code of this repository) is the list of its records in
insertion order. insertOne persists one record, appended, or faults
with PersistenceError leaving no partial record; the flag says whether
the storage layer faults during the call. -/
def insertOne (fault : Bool) (e : Employee) (store : List Employee) :
    Except Unit (List Employee) :=
  if fault then Except.error () else Except.ok (store ++ [e])

/-- Modelled from the spec: insertMany persists the given records in
one request to the store; partial-failure semantics are the store
default, with no all-or-nothing transaction established, so a storage
fault raises PersistenceError after a store-determined prefix of the
records has been persisted. fault = none is success; fault = some k is
a fault once k records are persisted; the error carries the resulting
collection. -/
def insertMany (fault : Option Nat) (es : List Employee)
    (store : List Employee) : Except (List Employee) (List Employee) :=
  match fault with
  | none => Except.ok (store ++ es)
  | some k => Except.error (store ++ es.take k)

/-- Modelled from the spec: deleteAll removes every record of the
collection and returns the count removed; it fails only on a
storage-layer fault, never because zero records match. -/
def deleteAll (fault : Bool) (store : List Employee) :
    Except Unit (List Employee × Nat) :=
  if fault then Except.error () else Except.ok ([], store.length)

/-- The fixed employee built by GET /generate (src/main.js 107-113). -/
def generateEmployee : Employee :=
  ⟨"Salman", 1200000, "Full stack", "japan", false⟩

/-- Handler of GET /generate (src/main.js 105-120): builds the fixed
employee, saves it, and confirms; the catch answers 500 with the
generic body. Returns the collection after the request and the
response. -/
def generateHandler (fault : Bool) (store : List Employee) :
    List Employee × Response :=
  match insertOne fault generateEmployee store with
  | Except.ok store2 => (store2, ⟨200, "generated successfully"⟩)
  | Except.error _ => (store, errorResponse)

/-- The ten fixed base identities of GET /generateMany
(src/main.js 124-135). -/
def baseEmployees : List BaseEmployee :=
  [⟨"Salman", "Full stack", "Japan", false⟩,
   ⟨"Ayesha", "Python", "Delhi", true⟩,
   ⟨"Rahul", "Java", "Mumbai", false⟩,
   ⟨"Neha", "React", "Pune", false⟩,
   ⟨"Vikram", "Angular", "Hyderabad", true⟩,
   ⟨"Arjun", "Node.js", "Bangalore", false⟩,
   ⟨"Meena", "C++", "Chennai", false⟩,
   ⟨"Kiran", "Machine Learning", "Kolkata", true⟩,
   ⟨"Simran", "Data Science", "Jaipur", false⟩,
   ⟨"Ankit", "Full Stack", "Lucknow", true⟩]

/-- The records built by GET /generateMany (src/main.js 137-140): each
base identity spread with a salary from a fresh getRandomSalary call
at the default bounds; the i-th call consumes the i-th draw of the
ambient random stream. -/
def generateManyRecords (draws : List ℚ) : List Employee :=
  List.zipWith
    (fun b r => withSalary b (getRandomSalary r defaultMinSalary defaultMaxSalary))
    baseEmployees draws

/-- Handler of GET /generateMany (src/main.js 122-148): builds the ten
records, inserts them in one insertMany call, and confirms; the catch
answers 500 with the generic body. -/
def generateManyHandler (draws : List ℚ) (fault : Option Nat)
    (store : List Employee) : List Employee × Response :=
  match insertMany fault (generateManyRecords draws) store with
  | Except.ok store2 => (store2, ⟨200, "✅ 10 employees generated successfully!"⟩)
  | Except.error store2 => (store2, errorResponse)

/-- Handler of GET /empDelete (src/main.js 150-162): deletes every
record; when the deleted count is positive the answer quotes it,
otherwise it reports that no record was found; the catch answers 500
with the generic body. -/
def empDeleteHandler (fault : Bool) (store : List Employee) :
    List Employee × Response :=
  match deleteAll fault store with
  | Except.ok (store2, n) =>
      if n > 0 then
        (store2, ⟨200, "Successfully deleted the empoyees details of " ++ toString n⟩)
      else
        (store2, ⟨200, "No employee record found"⟩)
  | Except.error _ => (store, errorResponse)

/-- Events of startServer (src/main.js 96-170) in execution order. -/
inductive StartupEvent where
  | connectAttempt
  | connectSuccess
  | connectFailure
  | registerRoute (path : String)
  | listen (port : Nat)
deriving DecidableEq, Repr

/-- Embedding of startServer (src/main.js 96-170) as its event trace:
the connection is awaited first; only on success are the four routes
registered and the port bound, while a connection failure is caught
and nothing further runs. connectOk says whether mongoose.connect
succeeds. -/
def startServer (connectOk : Bool) : List StartupEvent :=
  if connectOk then
    [StartupEvent.connectAttempt, StartupEvent.connectSuccess,
     StartupEvent.registerRoute "/", StartupEvent.registerRoute "/generate",
     StartupEvent.registerRoute "/generateMany",
     StartupEvent.registerRoute "/empDelete",
     StartupEvent.listen 3000]
  else
    [StartupEvent.connectAttempt, StartupEvent.connectFailure]

/-- The service reaches the ready state exactly when the port gets
bound during startup. -/
def serverReady (connectOk : Bool) : Prop :=
  StartupEvent.listen 3000 ∈ startServer connectOk

/-- Helper: every element of a zipWith comes from a pair of members. -/
lemma mem_zipWith_elim {α β γ : Type} (f : α → β → γ) :
    ∀ (as : List α) (bs : List β) (c : γ), c ∈ List.zipWith f as bs →
      ∃ a ∈ as, ∃ b ∈ bs, c = f a b := by
  intro as
  induction as with
  | nil => intro bs c h; simp [List.zipWith] at h
  | cons a as ih =>
    intro bs c h
    cases bs with
    | nil => simp [List.zipWith] at h
    | cons b bs =>
      simp only [List.zipWith, List.mem_cons] at h
      rcases h with h | h
      · exact ⟨a, List.mem_cons_self a _, b, List.mem_cons_self b _, h⟩
      · rcases ih bs c h with ⟨a', ha', b', hb', hc⟩
        exact ⟨a', List.mem_cons_of_mem _ ha', b', List.mem_cons_of_mem _ hb', hc⟩

/-- Helper: indexing a zipWith at a position both lists populate. -/
lemma zipWith_getElem?_eq {α β γ : Type} (f : α → β → γ) :
    ∀ (as : List α) (bs : List β) (i : ℕ) (a : α) (b : β),
      as[i]? = some a → bs[i]? = some b →
      (List.zipWith f as bs)[i]? = some (f a b) := by
  intro as
  induction as with
  | nil => intro bs i a b ha; simp at ha
  | cons x xs ih =>
    intro bs i a b ha hb
    cases bs with
    | nil => simp at hb
    | cons y ys =>
      cases i with
      | zero =>
        simp only [List.getElem?_cons_zero, Option.some.injEq] at ha hb
        simp [List.zipWith, ha, hb]
      | succ n =>
        simp only [List.getElem?_cons_succ] at ha hb
        simpa [List.zipWith] using ih ys n a b ha hb

/-- Claim C3: a successful GET /generate appends exactly one record,
with the fixed field values, and answers 200 "generated successfully". -/
theorem generate_success (store : List Employee) :
    (generateHandler false store).1 = store ++ [generateEmployee] ∧
    (generateHandler false store).1.length = store.length + 1 ∧
    generateEmployee.name = "Salman" ∧ generateEmployee.salary = 1200000 ∧
    generateEmployee.language = "Full stack" ∧ generateEmployee.city = "japan" ∧
    generateEmployee.isManager = false ∧
    (generateHandler false store).2.status = 200 ∧
    (generateHandler false store).2.body = "generated successfully" := by
  simp [generateHandler, insertOne, generateEmployee]

/-- Claim C4: a successful GET /generateMany, on a stream of ten unit
draws, appends exactly ten records; the i-th record is the i-th base
identity with the salary from the i-th fresh getRandomSalary call at
the default bounds; every record matches a fixed base identity and has
its salary in the default closed range; the answer is the 200
confirmation text. -/
theorem generateMany_success (store : List Employee) (draws : List ℚ)
    (hlen : draws.length = 10) (hdr : ∀ r ∈ draws, 0 ≤ r ∧ r < 1) :
    (generateManyHandler draws none store).1 = store ++ generateManyRecords draws ∧
    (generateManyHandler draws none store).1.length = store.length + 10 ∧
    (generateManyHandler draws none store).2.status = 200 ∧
    (generateManyHandler draws none store).2.body =
      "✅ 10 employees generated successfully!" ∧
    (∀ i, i < 10 → ∃ b r, baseEmployees[i]? = some b ∧ draws[i]? = some r ∧
      (generateManyRecords draws)[i]? =
        some (withSalary b (getRandomSalary r defaultMinSalary defaultMaxSalary))) ∧
    (∀ e ∈ generateManyRecords draws,
      (∃ b ∈ baseEmployees, e.name = b.name ∧ e.language = b.language ∧
        e.city = b.city ∧ e.isManager = b.isManager) ∧
      400000 ≤ e.salary ∧ e.salary ≤ 5000000) := by
  have hbase : baseEmployees.length = 10 := by simp [baseEmployees]
  refine ⟨?_, ?_, ?_, ?_, ?_, ?_⟩
  · simp [generateManyHandler, insertMany]
  · simp [generateManyHandler, insertMany, generateManyRecords, hlen, hbase]
  · simp [generateManyHandler, insertMany]
  · simp [generateManyHandler, insertMany]
  · intro i hi
    have hb' : i < baseEmployees.length := by omega
    have hr' : i < draws.length := by omega
    have hb : baseEmployees[i]? = some (baseEmployees.get ⟨i, hb'⟩) := by
      rw [List.getElem?_eq_getElem hb']; simp
    have hr : draws[i]? = some (draws.get ⟨i, hr'⟩) := by
      rw [List.getElem?_eq_getElem hr']; simp
    exact ⟨_, _, hb, hr, zipWith_getElem?_eq _ baseEmployees draws i _ _ hb hr⟩
  · intro e he
    rcases mem_zipWith_elim _ baseEmployees draws e he with ⟨b, hb, r, hr, he'⟩
    rcases hdr r hr with ⟨h0, h1⟩
    have hrange := getRandomSalary_mem_range defaultMinSalary defaultMaxSalary
      (by norm_num [defaultMinSalary, defaultMaxSalary]) r h0 h1
    subst he'
    refine ⟨⟨b, hb, ?_, ?_, ?_, ?_⟩, ?_, ?_⟩ <;>
      simp_all [withSalary, defaultMinSalary, defaultMaxSalary]

/-- Witness for C4 with the empty store and ten draws of one half. -/
theorem generateMany_success_witness :
    (List.replicate 10 ((1:ℚ)/2)).length = 10 ∧
    (∀ r ∈ List.replicate 10 ((1:ℚ)/2), 0 ≤ r ∧ r < 1) ∧
    (generateManyHandler (List.replicate 10 ((1:ℚ)/2)) none []).1.length =
      List.length ([] : List Employee) + 10 :=
  ⟨by simp, by intro r hr; rw [List.eq_of_mem_replicate hr]; norm_num,
   (generateMany_success [] (List.replicate 10 ((1:ℚ)/2)) (by simp)
     (by intro r hr; rw [List.eq_of_mem_replicate hr]; norm_num)).2.1⟩

/-- Claim C5: a successful GET /empDelete empties the collection; with
a positive prior count N the answer is 200 and quotes N, with zero it
is 200 "No employee record found"; zero matches is not a failure. -/
theorem empDelete_success (store : List Employee) :
    (empDeleteHandler false store).1 = [] ∧
    (empDeleteHandler false store).2.status = 200 ∧
    (0 < store.length →
      (empDeleteHandler false store).2.body =
        "Successfully deleted the empoyees details of " ++ toString store.length) ∧
    (store.length = 0 →
      (empDeleteHandler false store).2.body = "No employee record found") := by
  refine ⟨?_, ?_, ?_, ?_⟩
  · by_cases h : 0 < store.length <;> simp [empDeleteHandler, deleteAll, h]
  · by_cases h : 0 < store.length <;> simp [empDeleteHandler, deleteAll, h]
  · intro h; simp [empDeleteHandler, deleteAll, h]
  · intro h; simp [empDeleteHandler, deleteAll, h]

/-- Witness for C5 at a one-record store and at the empty store. -/
theorem empDelete_success_witness :
    (0 < List.length [generateEmployee] ∧
      (empDeleteHandler false [generateEmployee]).2.body =
        "Successfully deleted the empoyees details of " ++
          toString (List.length [generateEmployee])) ∧
    (List.length ([] : List Employee) = 0 ∧
      (empDeleteHandler false ([] : List Employee)).2.body =
        "No employee record found") :=
  ⟨⟨by decide, (empDelete_success [generateEmployee]).2.2.1 (by decide)⟩,
   ⟨rfl, (empDelete_success []).2.2.2 rfl⟩⟩

/-- Claim C6: a PersistenceError on any mutating route yields exactly
status 500 with body "Internal server error", and the fault is
recovered locally: handlers keep serving later requests normally on
whatever collection the faulted request left behind. -/
theorem fault_gives_500_and_recovers (store : List Employee)
    (draws : List ℚ) (k : Nat) :
    (generateHandler true store).2 = errorResponse ∧
    (generateManyHandler draws (some k) store).2 = errorResponse ∧
    (empDeleteHandler true store).2 = errorResponse ∧
    errorResponse.status = 500 ∧
    errorResponse.body = "Internal server error" ∧
    (generateHandler false (generateHandler true store).1).2.body =
      "generated successfully" ∧
    (empDeleteHandler false (generateManyHandler draws (some k) store).1).1 = [] ∧
    (empDeleteHandler false (generateManyHandler draws (some k) store).1).2.status
      = 200 := by
  refine ⟨?_, ?_, ?_, rfl, rfl, ?_, ?_, ?_⟩
  · simp [generateHandler, insertOne]
  · simp [generateManyHandler, insertMany]
  · simp [empDeleteHandler, deleteAll]
  · simp [generateHandler, insertOne]
  · by_cases h :
      0 < ((generateManyHandler draws (some k) store).1).length <;>
      simp [empDeleteHandler, deleteAll, h]
  · by_cases h :
      0 < ((generateManyHandler draws (some k) store).1).length <;>
      simp [empDeleteHandler, deleteAll, h]

/-- Counterexample to claim C7 as stated: a storage fault during the
bulk insert that strikes after one record is persisted leaves that
record in the collection, so the prior (empty) contents are not
restored and one of the ten records persists. -/
theorem create_fault_partial_cx :
    (generateManyHandler (List.replicate 10 (0:ℚ)) (some 1) []).1 ≠
      ([] : List Employee) ∧
    (generateManyHandler (List.replicate 10 (0:ℚ)) (some 1) []).1.length = 1 := by
  constructor <;>
    simp [generateManyHandler, insertMany, generateManyRecords, baseEmployees,
      List.replicate, withSalary]

/-- Claim C7 amended: a fault during the create-one route leaves the
collection unchanged; a fault during the create-ten route preserves
the prior records and persists, beyond them, only a store-determined
prefix of the ten new records (possibly empty, possibly not: the
design fixes no all-or-nothing transaction). -/
theorem create_fault_store_effect (store : List Employee)
    (draws : List ℚ) (k : Nat) :
    (generateHandler true store).1 = store ∧
    (∃ persisted : List Employee,
      (generateManyHandler draws (some k) store).1 = store ++ persisted ∧
      persisted <+: generateManyRecords draws ∧
      persisted.length ≤ 10) := by
  refine ⟨by simp [generateHandler, insertOne], ⟨(generateManyRecords draws).take k, ?_, ?_, ?_⟩⟩
  · simp [generateManyHandler, insertMany]
  · exact List.take_prefix k _
  · have h1 : (generateManyRecords draws).length ≤ 10 := by
      simp [generateManyRecords, baseEmployees]
    rw [List.length_take]
    omega

/-- Claim C8: when the initial store connection fails the service
never reaches the ready state: the port is not bound, no route is
registered; and on every startup a listen event, when one occurs, is
preceded by the successful completion of the connect step. -/
theorem startup_requires_connection :
    (¬ serverReady false) ∧
    (∀ p, StartupEvent.registerRoute p ∉ startServer false) ∧
    (∀ q, StartupEvent.listen q ∉ startServer false) ∧
    (∀ (b : Bool) (i q : ℕ), (startServer b)[i]? = some (StartupEvent.listen q) →
      ∃ j, j < i ∧ (startServer b)[j]? = some StartupEvent.connectSuccess) := by
  refine ⟨?_, ?_, ?_, ?_⟩
  · simp [serverReady, startServer]
  · intro p; simp [startServer]
  · intro q; simp [startServer]
  · intro b i q h
    cases b with
    | false =>
      exfalso
      rcases i with _ | _ | i <;> simp [startServer] at h
    | true =>
      refine ⟨1, ?_, by simp [startServer]⟩
      rcases i with _ | _ | _ | _ | _ | _ | _ | i <;>
        simp [startServer] at h ⊢

/-- Witness for C8: on a successful startup the listen event sits at
index six, after the connect success at index one. -/
theorem startup_requires_connection_witness :
    (startServer true)[6]? = some (StartupEvent.listen 3000) ∧
    (∃ j, j < 6 ∧ (startServer true)[j]? = some StartupEvent.connectSuccess) :=
  ⟨rfl, startup_requires_connection.2.2.2 true 6 3000 rfl⟩
